import Mathlib

/-!
Verification development for the FGP Calendar daemon (`src/main.rs`).

The daemon exposes five methods (`calendar.today`, `calendar.upcoming`,
`calendar.search`, `calendar.create`, `calendar.free_slots`).  `dispatch`
routes a method name plus a JSON parameter map to a handler; each handler
extracts parameters (`as_u64` / `as_str`, with `unwrap_or` defaults or
`context(...)` errors) and then invokes the Python helper through
`run_cli`, which spawns the helper process, inspects its exit status and
parses its standard output as JSON.

The embedding below mirrors that code:

* `Json` models `serde_json::Value` (integer numbers only; no claim here
  involves floating-point values).
* A backend is modelled as an oracle `Backend : List String → CliOutput`
  giving, for each argument vector passed to the helper script, the exit
  status, the JSON parse result of its standard output
  (`Option Json`, standing for `serde_json::from_slice` on the captured
  bytes) and its standard-error text.
* Every function that can invoke the helper returns, next to its
  `Except String Json` result (anyhow errors are their display messages),
  the list of argument vectors passed to the backend, so that
  "the backend executor is never invoked" is expressible as that list
  being empty.
-/

/-- Model of `serde_json::Value`.  Numbers are integers: the source only
ever inspects numbers through `as_u64`, and no claim involves a
floating-point literal. -/
inductive Json where
  | null
  | bool (b : Bool)
  | num (n : Int)
  | str (s : String)
  | arr (elems : List Json)
  | obj (fields : List (String × Json))

/-- Rust `Value::as_u64`: `Some` exactly on integer numbers representable as a
`u64`, `None` on everything else (negative numbers, strings, ...). -/
def Json.asU64 : Json → Option Nat
  | .num n => if 0 ≤ n ∧ n < 18446744073709551616 then some n.toNat else none
  | _ => none

/-- Rust `Value::as_str`: `Some` exactly on strings. -/
def Json.asStr : Json → Option String
  | .str s => some s
  | _ => none

/-- Rust `Value::get(key)` on an object: first binding of the key, `None` for
non-objects. -/
def Json.getKey : Json → String → Option Json
  | .obj fields, k => (fields.find? (fun kv => kv.1 == k)).map Prod.snd
  | _, _ => none

/-- Rust `HashMap::get` on the inbound `params : HashMap<String, Value>`,
modelled on an association list (keys are unique in a `HashMap`; lookup
takes the first binding). -/
def getP (params : List (String × Json)) (k : String) : Option Json :=
  (params.find? (fun kv => kv.1 == k)).map Prod.snd

/-- The observable behaviour of one helper-process invocation: exit
status, the result of `serde_json::from_slice` on its captured standard
output, and its standard-error text (`from_utf8_lossy`). -/
structure CliOutput where
  exitSuccess : Bool
  stdoutJson : Option Json
  stderr : String

/-- A backend oracle: what the helper process does for each argument
vector.  (`Command::new("python3").arg(cli_path).args(args)` — the
script path is fixed for the service's lifetime, so the oracle is a
function of `args` alone.) -/
abbrev Backend := List String → CliOutput

/-- Struct `HealthStatus` from `fgp_daemon::service`. -/
structure HealthStatus where
  ok : Bool
  latency_ms : Option Nat
  message : Option String

/-- Struct `ParamInfo` from `fgp_daemon::service`. -/
structure ParamInfo where
  name : String
  param_type : String
  required : Bool
  default : Option Json

/-- Struct `MethodInfo` from `fgp_daemon::service`. -/
structure MethodInfo where
  name : String
  description : String
  params : List ParamInfo

/-- The service state: `CalendarService { cli_path: PathBuf }`. -/
structure CalendarService where
  cli_path : String

/-- The result of a call together with the argument vectors passed to the
backend helper (in order). -/
abbrev CallOut := Except String Json × List (List String)

/-- Function `CalendarService::run_cli`.  On non-zero exit it tries to parse
standard output as JSON and extract a string `error` field
(`bail!("Calendar API error: {}", error)`), otherwise surfaces standard
error (`bail!("calendar-cli failed: {}", stderr)`); on zero exit the
standard output must parse as JSON
(`.context("Failed to parse calendar-cli output")`). -/
def run_cli (b : Backend) (args : List String) : CallOut :=
  let out := b args
  let res : Except String Json :=
    if out.exitSuccess then
      match out.stdoutJson with
      | some j => .ok j
      | none => .error "Failed to parse calendar-cli output"
    else
      match out.stdoutJson.bind (fun j => (j.getKey "error").bind Json.asStr) with
      | some e => .error ("Calendar API error: " ++ e)
      | none => .error ("calendar-cli failed: " ++ out.stderr)
  (res, [args])

/-- Handler `CalendarService::today`. -/
def today (b : Backend) : CallOut :=
  run_cli b ["today"]

/-- Handler `CalendarService::upcoming`: `days` and `limit` via
`.and_then(|v| v.as_u64()).unwrap_or(7 / 20)`. -/
def upcoming (b : Backend) (params : List (String × Json)) : CallOut :=
  let days := ((getP params "days").bind Json.asU64).getD 7
  let limit := ((getP params "limit").bind Json.asU64).getD 20
  run_cli b ["upcoming", "--days", toString days, "--limit", toString limit]

/-- Handler `CalendarService::search`: `query` required
(`.context("query parameter is required")?`), `days` defaulted to 30. -/
def search (b : Backend) (params : List (String × Json)) : CallOut :=
  match (getP params "query").bind Json.asStr with
  | none => (.error "query parameter is required", [])
  | some query =>
    let days := ((getP params "days").bind Json.asU64).getD 30
    run_cli b ["search", query, "--days", toString days]

/-- Handler `CalendarService::create`: `summary`, `start`, `end` required strings
(checked in that order); optional `description` appended as
`--description <desc>`. -/
def create (b : Backend) (params : List (String × Json)) : CallOut :=
  match (getP params "summary").bind Json.asStr with
  | none => (.error "summary parameter is required", [])
  | some summary =>
    match (getP params "start").bind Json.asStr with
    | none => (.error "start parameter is required", [])
    | some start =>
      match (getP params "end").bind Json.asStr with
      | none => (.error "end parameter is required", [])
      | some stop =>
        match (getP params "description").bind Json.asStr with
        | some d => run_cli b (["create", summary, start, stop] ++ ["--description", d])
        | none => run_cli b ["create", summary, start, stop]

/-- Handler `CalendarService::free_slots`: `duration_minutes` required
(`.context("duration_minutes parameter is required")?`), `days`
defaulted to 7. -/
def free_slots (b : Backend) (params : List (String × Json)) : CallOut :=
  match (getP params "duration_minutes").bind Json.asU64 with
  | none => (.error "duration_minutes parameter is required", [])
  | some duration =>
    let days := ((getP params "days").bind Json.asU64).getD 7
    run_cli b ["free-slots", "--duration", toString duration, "--days", toString days]

/-- Function `CalendarService::dispatch`: route on the method name; unknown
method → `bail!("Unknown method: {}", method)`. -/
def dispatch (b : Backend) (method : String) (params : List (String × Json)) : CallOut :=
  if method = "calendar.today" then today b
  else if method = "calendar.upcoming" then upcoming b params
  else if method = "calendar.search" then search b params
  else if method = "calendar.create" then create b params
  else if method = "calendar.free_slots" then free_slots b params
  else (.error ("Unknown method: " ++ method), [])

/-- Function `CalendarService::method_list` (ignores `self`, exactly as the
source does). -/
def method_list (_s : CalendarService) : List MethodInfo :=
  [ { name := "calendar.today"
      description := "Get today's calendar events"
      params := [] },
    { name := "calendar.upcoming"
      description := "Get upcoming events"
      params :=
        [ { name := "days", param_type := "integer", required := false,
            default := some (.num 7) },
          { name := "limit", param_type := "integer", required := false,
            default := some (.num 20) } ] },
    { name := "calendar.search"
      description := "Search events by query"
      params :=
        [ { name := "query", param_type := "string", required := true,
            default := none },
          { name := "days", param_type := "integer", required := false,
            default := some (.num 30) } ] },
    { name := "calendar.create"
      description := "Create a new event"
      params :=
        [ { name := "summary", param_type := "string", required := true,
            default := none },
          { name := "start", param_type := "string", required := true,
            default := none },
          { name := "end", param_type := "string", required := true,
            default := none },
          { name := "description", param_type := "string", required := false,
            default := none } ] },
    { name := "calendar.free_slots"
      description := "Find available time slots"
      params :=
        [ { name := "duration_minutes", param_type := "integer",
            required := true, default := none },
          { name := "days", param_type := "integer", required := false,
            default := some (.num 7) } ] } ]

/-- Function `CalendarService::health_check`: a total function (the Rust signature
returns a plain `HashMap`, no `Result`, so no failure can propagate).
`cliExists` models `self.cli_path.exists()`. -/
def health_check (s : CalendarService) (cliExists : Bool) :
    List (String × HealthStatus) :=
  if cliExists then
    [("calendar_cli",
      { ok := true, latency_ms := none,
        message := some ("CLI at " ++ s.cli_path) })]
  else
    [("calendar_cli",
      { ok := false, latency_ms := none,
        message := some "calendar-cli.py not found" })]

/-! ### Helper lemmas -/

/-- Lookup of a key that heads the parameter list. -/
theorem getP_cons_self (k : String) (v : Json) (p : List (String × Json)) :
    getP ((k, v) :: p) k = some v := by
  unfold getP
  rw [List.find?_cons_of_pos _ (by simp)]
  rfl

/-- Lookup skips a binding for a different key. -/
theorem getP_cons_of_ne (k' k : String) (v : Json) (p : List (String × Json))
    (h : k' ≠ k) : getP ((k', v) :: p) k = getP p k := by
  unfold getP
  rw [List.find?_cons_of_neg _ (by simp [h])]

/-- Reduction of `dispatch` on each registered method name and on an
unknown name. -/
theorem dispatch_today (b : Backend) (params : List (String × Json)) :
    dispatch b "calendar.today" params = today b := by
  simp [dispatch]

theorem dispatch_upcoming (b : Backend) (params : List (String × Json)) :
    dispatch b "calendar.upcoming" params = upcoming b params := by
  simp [dispatch]

theorem dispatch_search (b : Backend) (params : List (String × Json)) :
    dispatch b "calendar.search" params = search b params := by
  simp [dispatch]

theorem dispatch_create (b : Backend) (params : List (String × Json)) :
    dispatch b "calendar.create" params = create b params := by
  simp [dispatch]

theorem dispatch_free_slots (b : Backend) (params : List (String × Json)) :
    dispatch b "calendar.free_slots" params = free_slots b params := by
  simp [dispatch]

/-- An unknown method name short-circuits `dispatch` with the
`Unknown method` error and no backend invocation. -/
theorem dispatch_unknown (b : Backend) (m : String)
    (params : List (String × Json))
    (h : m ∉ ["calendar.today", "calendar.upcoming", "calendar.search",
              "calendar.create", "calendar.free_slots"]) :
    dispatch b m params = (.error ("Unknown method: " ++ m), []) := by
  simp only [List.mem_cons, List.not_mem_nil, or_false, not_or] at h
  obtain ⟨h1, h2, h3, h4, h5⟩ := h
  simp [dispatch, h1, h2, h3, h4, h5]

/-! ### Claims -/

/-- C5: for every method name not among the registered ones, `dispatch`
returns the unknown-method (`NotFound`) error and the backend helper is
never invoked: the backend-call trace is empty. -/
theorem C5_unknown_method_no_backend (b : Backend) (m : String)
    (params : List (String × Json))
    (h : m ∉ ["calendar.today", "calendar.upcoming", "calendar.search",
              "calendar.create", "calendar.free_slots"]) :
    dispatch b m params = (.error ("Unknown method: " ++ m), []) :=
  dispatch_unknown b m params h

/-- Witness for C5 at the concrete method name `"nope"`. -/
theorem C5_unknown_method_no_backend_witness :
    dispatch (fun _ => ⟨true, some .null, ""⟩) "nope" [] =
      (.error ("Unknown method: " ++ "nope"), []) :=
  C5_unknown_method_no_backend (fun _ => ⟨true, some .null, ""⟩) "nope" []
    (by decide)

/-- C10: the method names accepted by `dispatch` (those for which some
backend and parameter map make the call succeed) are exactly the names
returned by `method_list`, namely the five `calendar.*` names; these are
pairwise distinct, and `method_list` is independent of the service
state. -/
theorem C10_method_surface :
    (∀ s : CalendarService, (method_list s).map MethodInfo.name =
      ["calendar.today", "calendar.upcoming", "calendar.search",
       "calendar.create", "calendar.free_slots"]) ∧
    (["calendar.today", "calendar.upcoming", "calendar.search",
      "calendar.create", "calendar.free_slots"] : List String).Nodup ∧
    (∀ s₁ s₂ : CalendarService, method_list s₁ = method_list s₂) ∧
    (∀ m : String,
      m ∈ ["calendar.today", "calendar.upcoming", "calendar.search",
           "calendar.create", "calendar.free_slots"] ↔
      ∃ (b : Backend) (params : List (String × Json)),
        (dispatch b m params).1.isOk = true) := by
  refine ⟨fun s => rfl, by decide, fun s₁ s₂ => rfl, fun m => ⟨?_, ?_⟩⟩
  · intro hm
    simp only [List.mem_cons, List.not_mem_nil, or_false] at hm
    rcases hm with rfl | rfl | rfl | rfl | rfl
    · exact ⟨fun _ => ⟨true, some .null, ""⟩, [], rfl⟩
    · exact ⟨fun _ => ⟨true, some .null, ""⟩, [], rfl⟩
    · exact ⟨fun _ => ⟨true, some .null, ""⟩, [("query", .str "q")], rfl⟩
    · exact ⟨fun _ => ⟨true, some .null, ""⟩,
        [("summary", .str "a"), ("start", .str "b"), ("end", .str "c")], rfl⟩
    · exact ⟨fun _ => ⟨true, some .null, ""⟩, [("duration_minutes", .num 1)], rfl⟩
  · rintro ⟨b, params, hok⟩
    by_contra hnot
    rw [dispatch_unknown b m params hnot] at hok
    simp [Except.isOk, Except.toBool] at hok

/-- Witness for C10: the accepted-name equivalence applied at the
concrete name `"calendar.today"`. -/
theorem C10_method_surface_witness :
    ∃ (b : Backend) (params : List (String × Json)),
      (dispatch b "calendar.today" params).1.isOk = true :=
  (C10_method_surface.2.2.2 "calendar.today").mp (by decide)

/-- C6: a dispatch call that omits a required parameter fails before any
backend invocation, with an error naming a required parameter for which
the input supplied no value of the declared type; for `calendar.search`
the named parameter is `query` itself, and similarly for
`calendar.free_slots` and `duration_minutes`. -/
theorem C6_missing_required_param :
    (∀ (b : Backend) (params : List (String × Json)),
       getP params "query" = none →
       dispatch b "calendar.search" params =
         (.error "query parameter is required", [])) ∧
    (∀ (b : Backend) (params : List (String × Json)),
       getP params "summary" = none ∨ getP params "start" = none ∨
         getP params "end" = none →
       ∃ r, r ∈ ["summary", "start", "end"] ∧
         (getP params r).bind Json.asStr = none ∧
         dispatch b "calendar.create" params =
           (.error (r ++ " parameter is required"), [])) ∧
    (∀ (b : Backend) (params : List (String × Json)),
       getP params "duration_minutes" = none →
       dispatch b "calendar.free_slots" params =
         (.error "duration_minutes parameter is required", [])) := by
  refine ⟨?_, ?_, ?_⟩
  · intro b params h
    rw [dispatch_search]
    simp [search, h]
  · intro b params h
    rw [dispatch_create]
    cases hs : (getP params "summary").bind Json.asStr with
    | none =>
      exact ⟨"summary", by simp, hs, by simp [create, hs]⟩
    | some s =>
      cases hst : (getP params "start").bind Json.asStr with
      | none =>
        exact ⟨"start", by simp, hst, by simp [create, hs, hst]⟩
      | some t =>
        have he : getP params "end" = none := by
          rcases h with h | h | h
          · rw [h] at hs; exact absurd hs (by simp)
          · rw [h] at hst; exact absurd hst (by simp)
          · exact h
        have he' : (getP params "end").bind Json.asStr = none := by
          rw [he]; rfl
        exact ⟨"end", by simp, he', by simp [create, hs, hst, he']⟩
  · intro b params h
    rw [dispatch_free_slots]
    simp [free_slots, h]

/-- Witness for C6 at `calendar.search` with an empty parameter map. -/
theorem C6_missing_required_param_witness :
    dispatch (fun _ => ⟨true, some .null, ""⟩) "calendar.search" [] =
      (.error "query parameter is required", []) :=
  C6_missing_required_param.1 (fun _ => ⟨true, some .null, ""⟩) [] rfl

/-- Counterexample to C7: dispatching the literal method name `"today"`
(without the `calendar.` prefix) hits the unknown-method branch — even
against a backend answering `[{"summary":"standup"}]`, the result is the
unknown-method error with no backend invocation, not that array. -/
theorem C7_counterexample :
    dispatch
        (fun _ => ⟨true, some (.arr [.obj [("summary", .str "standup")]]), ""⟩)
        "today" [] =
      (.error ("Unknown method: " ++ "today"), []) := rfl

/-- C7 (amended): a zero-exit backend call whose standard output parses
as JSON is propagated unchanged by `run_cli` (and hence by every handler
and by `dispatch`); in particular dispatching `"calendar.today"` (the
registered name) against a backend answering `[{"summary":"standup"}]`
returns exactly that array with no error. -/
theorem C7_success_propagates :
    (∀ (b : Backend) (args : List String) (j : Json),
       (b args).exitSuccess = true → (b args).stdoutJson = some j →
       run_cli b args = (.ok j, [args])) ∧
    (dispatch
        (fun _ => ⟨true, some (.arr [.obj [("summary", .str "standup")]]), ""⟩)
        "calendar.today" []).1 =
      .ok (.arr [.obj [("summary", .str "standup")]]) := by
  constructor
  · intro b args j h1 h2
    simp [run_cli, h1, h2]
  · rfl

/-- Witness for C7: the propagation lemma applied to a concrete
zero-exit backend. -/
theorem C7_success_propagates_witness :
    run_cli (fun _ => ⟨true, some .null, ""⟩) ["today"] =
      (.ok .null, [["today"]]) :=
  C7_success_propagates.1 (fun _ => ⟨true, some .null, ""⟩) ["today"] .null
    rfl rfl

/-- Counterexample to C3: with a non-zero exit and stdout
`{"error":"rate limited"}`, the returned message is
`"Calendar API error: rate limited"`, not exactly `"rate limited"`. -/
theorem C3_counterexample :
    (dispatch
        (fun _ => ⟨false, some (.obj [("error", .str "rate limited")]), "boom"⟩)
        "calendar.today" []).1 =
      .error ("Calendar API error: rate limited") ∧
    (dispatch
        (fun _ => ⟨false, some (.obj [("error", .str "rate limited")]), "boom"⟩)
        "calendar.today" []).1 ≠ .error "rate limited" :=
  ⟨rfl, fun h => absurd (Except.error.inj h) (by decide)⟩

/-- C3 (amended): on non-zero exit with a JSON stdout carrying a string
`error` field, the surfaced error message is `"Calendar API error: "`
followed by that field's value — the field value prefixed, not the bare
field value. -/
theorem C3_backend_error_message :
    (∀ (b : Backend) (args : List String) (msg : String),
       (b args).exitSuccess = false →
       (b args).stdoutJson.bind (fun j => (j.getKey "error").bind Json.asStr)
         = some msg →
       run_cli b args = (.error ("Calendar API error: " ++ msg), [args])) ∧
    (∀ msg stderr : String,
       (dispatch (fun _ => ⟨false, some (.obj [("error", .str msg)]), stderr⟩)
           "calendar.today" []).1 =
         .error ("Calendar API error: " ++ msg)) := by
  constructor
  · intro b args msg h1 h2
    simp [run_cli, h1, h2]
  · intro msg stderr
    rw [dispatch_today]
    simp [today, run_cli, Json.getKey, Json.asStr]

/-- Witness for C3 (amended) at a concrete failing backend. -/
theorem C3_backend_error_message_witness :
    run_cli (fun _ => ⟨false, some (.obj [("error", .str "rate limited")]), ""⟩)
        ["today"] =
      (.error ("Calendar API error: " ++ "rate limited"), [["today"]]) :=
  C3_backend_error_message.1
    (fun _ => ⟨false, some (.obj [("error", .str "rate limited")]), ""⟩)
    ["today"] "rate limited" rfl rfl

/-- Counterexample to C4: with a zero exit and non-JSON stdout the error
message is `"Failed to parse calendar-cli output"`, not
`"malformed backend output"`. -/
theorem C4_counterexample :
    (dispatch (fun _ => ⟨true, none, ""⟩) "calendar.today" []).1 =
      .error "Failed to parse calendar-cli output" ∧
    (dispatch (fun _ => ⟨true, none, ""⟩) "calendar.today" []).1 ≠
      .error "malformed backend output" :=
  ⟨rfl, fun h => absurd (Except.error.inj h) (by decide)⟩

/-- C4 (amended): on zero exit with standard output that does not parse
as JSON, the call fails with the message
`"Failed to parse calendar-cli output"`. -/
theorem C4_malformed_output_message :
    (∀ (b : Backend) (args : List String),
       (b args).exitSuccess = true → (b args).stdoutJson = none →
       run_cli b args = (.error "Failed to parse calendar-cli output", [args])) ∧
    (∀ stderr : String,
       (dispatch (fun _ => ⟨true, none, stderr⟩) "calendar.today" []).1 =
         .error "Failed to parse calendar-cli output") := by
  constructor
  · intro b args h1 h2
    simp [run_cli, h1, h2]
  · intro stderr
    rfl

/-- Witness for C4 (amended) at a concrete backend with unparseable
standard output. -/
theorem C4_malformed_output_message_witness :
    run_cli (fun _ => ⟨true, none, ""⟩) ["today"] =
      (.error "Failed to parse calendar-cli output", [["today"]]) :=
  C4_malformed_output_message.1 (fun _ => ⟨true, none, ""⟩) ["today"] rfl rfl

/-- Counterexample to C1: `calendar.upcoming` with `days` present as the
non-coercible string `"x"` does not return an `InvalidParams` error — it
proceeds, invoking the backend with the default `--days 7`. -/
theorem C1_counterexample :
    dispatch (fun _ => ⟨true, some .null, ""⟩) "calendar.upcoming"
        [("days", .str "x")] =
      (.ok .null, [["upcoming", "--days", "7", "--limit", "20"]]) := rfl

/-- C1 (amended): an integer-typed parameter whose supplied value does
not coerce (`as_u64` fails) is treated exactly as if it were absent, for
every integer-typed parameter of every method: the optional `days` and
`limit` of `calendar.upcoming`, `days` of `calendar.search` and `days`
of `calendar.free_slots` take their declared defaults (7, 20, 30 and 7)
with no error, while the required `duration_minutes` of
`calendar.free_slots` yields the missing-parameter error naming the
field and the backend is not invoked. -/
theorem C1_noncoercible_treated_as_absent :
    (∀ (b : Backend) (v : Json) (params : List (String × Json)),
       Json.asU64 v = none →
       dispatch b "calendar.upcoming" (("days", v) :: params) =
         dispatch b "calendar.upcoming" (("days", .num 7) :: params)) ∧
    (∀ (b : Backend) (v : Json) (params : List (String × Json)),
       Json.asU64 v = none →
       dispatch b "calendar.upcoming" (("limit", v) :: params) =
         dispatch b "calendar.upcoming" (("limit", .num 20) :: params)) ∧
    (∀ (b : Backend) (v : Json) (params : List (String × Json)),
       Json.asU64 v = none →
       dispatch b "calendar.search" (("days", v) :: params) =
         dispatch b "calendar.search" (("days", .num 30) :: params)) ∧
    (∀ (b : Backend) (v : Json) (params : List (String × Json)),
       Json.asU64 v = none →
       dispatch b "calendar.free_slots" (("days", v) :: params) =
         dispatch b "calendar.free_slots" (("days", .num 7) :: params)) ∧
    (∀ (b : Backend) (v : Json) (params : List (String × Json)),
       Json.asU64 v = none →
       dispatch b "calendar.free_slots" (("duration_minutes", v) :: params) =
         (.error "duration_minutes parameter is required", [])) := by
  refine ⟨?_, ?_, ?_, ?_, ?_⟩
  · intro b v params hv
    rw [dispatch_upcoming, dispatch_upcoming]
    unfold upcoming
    rw [getP_cons_self, getP_cons_self,
      getP_cons_of_ne "days" "limit" v params (by decide),
      getP_cons_of_ne "days" "limit" (.num 7) params (by decide)]
    simp [hv, show Json.asU64 (.num 7) = some 7 from rfl]
  · intro b v params hv
    rw [dispatch_upcoming, dispatch_upcoming]
    unfold upcoming
    rw [getP_cons_self, getP_cons_self,
      getP_cons_of_ne "limit" "days" v params (by decide),
      getP_cons_of_ne "limit" "days" (.num 20) params (by decide)]
    simp [hv, show Json.asU64 (.num 20) = some 20 from rfl]
  · intro b v params hv
    rw [dispatch_search, dispatch_search]
    unfold search
    rw [getP_cons_of_ne "days" "query" v params (by decide),
      getP_cons_of_ne "days" "query" (.num 30) params (by decide)]
    cases hq : (getP params "query").bind Json.asStr with
    | none => rfl
    | some q =>
      rw [getP_cons_self, getP_cons_self]
      simp [hv, show Json.asU64 (.num 30) = some 30 from rfl]
  · intro b v params hv
    rw [dispatch_free_slots, dispatch_free_slots]
    unfold free_slots
    rw [getP_cons_of_ne "days" "duration_minutes" v params (by decide),
      getP_cons_of_ne "days" "duration_minutes" (.num 7) params (by decide)]
    cases hd : (getP params "duration_minutes").bind Json.asU64 with
    | none => rfl
    | some d =>
      rw [getP_cons_self, getP_cons_self]
      simp [hv, show Json.asU64 (.num 7) = some 7 from rfl]
  · intro b v params hv
    rw [dispatch_free_slots]
    unfold free_slots
    rw [getP_cons_self]
    simp [hv]

/-- Witness for C1 (amended) at the non-coercible value `"x"`. -/
theorem C1_noncoercible_treated_as_absent_witness :
    dispatch (fun _ => ⟨true, some .null, ""⟩) "calendar.upcoming"
        [("days", .str "x")] =
      dispatch (fun _ => ⟨true, some .null, ""⟩) "calendar.upcoming"
        [("days", .num 7)] :=
  C1_noncoercible_treated_as_absent.1 (fun _ => ⟨true, some .null, ""⟩)
    (.str "x") [] rfl

/-- Counterexample to C2: dispatching the literal method name
`"upcoming"` (without the `calendar.` prefix) hits the unknown-method
branch — the backend receives no invocation at all, rather than the
claimed argument vector. -/
theorem C2_counterexample :
    dispatch (fun _ => ⟨true, some .null, ""⟩) "upcoming" [("days", .num 7)] =
      (.error ("Unknown method: " ++ "upcoming"), []) := rfl

/-- C2 (amended): dispatching `"calendar.upcoming"` with
`{"days": 7}` invokes the backend helper exactly once, with the argument
vector `["upcoming", "--days", "7", "--limit", "20"]` (the declared
default `limit = 20` filled in). -/
theorem C2_upcoming_args (b : Backend) :
    dispatch b "calendar.upcoming" [("days", .num 7)] =
      run_cli b ["upcoming", "--days", "7", "--limit", "20"] ∧
    (dispatch b "calendar.upcoming" [("days", .num 7)]).2 =
      [["upcoming", "--days", "7", "--limit", "20"]] :=
  ⟨rfl, rfl⟩

/-- C8: for every optional parameter with a declared default (`days` and
`limit` of `calendar.upcoming`, `days` of `calendar.search`, `days` of
`calendar.free_slots`), supplying the default explicitly yields exactly
the same call outcome (same backend invocation, same result) as omitting
the parameter. -/
theorem C8_default_equals_explicit :
    (∀ (b : Backend) (params : List (String × Json)),
       getP params "days" = none →
       dispatch b "calendar.upcoming" (("days", .num 7) :: params) =
         dispatch b "calendar.upcoming" params) ∧
    (∀ (b : Backend) (params : List (String × Json)),
       getP params "limit" = none →
       dispatch b "calendar.upcoming" (("limit", .num 20) :: params) =
         dispatch b "calendar.upcoming" params) ∧
    (∀ (b : Backend) (params : List (String × Json)),
       getP params "days" = none →
       dispatch b "calendar.search" (("days", .num 30) :: params) =
         dispatch b "calendar.search" params) ∧
    (∀ (b : Backend) (params : List (String × Json)),
       getP params "days" = none →
       dispatch b "calendar.free_slots" (("days", .num 7) :: params) =
         dispatch b "calendar.free_slots" params) := by
  refine ⟨?_, ?_, ?_, ?_⟩
  · intro b params h
    rw [dispatch_upcoming, dispatch_upcoming]
    unfold upcoming
    rw [getP_cons_self, getP_cons_of_ne "days" "limit" (.num 7) params (by decide), h]
    simp [Json.asU64]
  · intro b params h
    rw [dispatch_upcoming, dispatch_upcoming]
    unfold upcoming
    rw [getP_cons_self, getP_cons_of_ne "limit" "days" (.num 20) params (by decide), h]
    simp [Json.asU64]
  · intro b params h
    rw [dispatch_search, dispatch_search]
    unfold search
    rw [getP_cons_of_ne "days" "query" (.num 30) params (by decide)]
    cases hq : (getP params "query").bind Json.asStr with
    | none => rfl
    | some q =>
      rw [getP_cons_self, h]
      simp [Json.asU64]
  · intro b params h
    rw [dispatch_free_slots, dispatch_free_slots]
    unfold free_slots
    rw [getP_cons_of_ne "days" "duration_minutes" (.num 7) params (by decide)]
    cases hd : (getP params "duration_minutes").bind Json.asU64 with
    | none => rfl
    | some d =>
      rw [getP_cons_self, h]
      simp [Json.asU64]

/-- Witness for C8 at `calendar.upcoming` with an empty parameter map. -/
theorem C8_default_equals_explicit_witness :
    dispatch (fun _ => ⟨true, some .null, ""⟩) "calendar.upcoming"
        [("days", .num 7)] =
      dispatch (fun _ => ⟨true, some .null, ""⟩) "calendar.upcoming" [] :=
  C8_default_equals_explicit.1 (fun _ => ⟨true, some .null, ""⟩) [] rfl

/-- C9: `health_check` is a total function (the Rust signature returns a
plain map, so no failure can propagate); it always returns the
`calendar_cli` subsystem entry, whose `ok` flag mirrors whether the CLI
script exists and whose message is always present and non-empty — in
particular, with the script absent it reports `ok = false` with the
non-empty message `"calendar-cli.py not found"`. -/
theorem C9_health_check_total (s : CalendarService) (cliExists : Bool) :
    ∃ st : HealthStatus,
      health_check s cliExists = [("calendar_cli", st)] ∧
      st.ok = cliExists ∧
      ∃ m, st.message = some m ∧ m ≠ "" := by
  cases cliExists with
  | false =>
    exact ⟨_, rfl, rfl, "calendar-cli.py not found", rfl, by decide⟩
  | true =>
    refine ⟨_, rfl, rfl, "CLI at " ++ s.cli_path, rfl, fun h => ?_⟩
    have hlen := congrArg String.length h
    rw [String.length_append] at hlen
    rw [show ("CLI at " : String).length = 7 from rfl,
      show ("" : String).length = 0 from rfl] at hlen
    omega
